import Mathlib

/-!
Shallow embedding of `src/ardupilot_sitl_gazebo_plugin/src/apm_plugin_gazebo_side.cpp`
(the Gazebo-side methods of `ArdupilotSitlGazeboPlugin`), together with
theorems settling the specification claims about it.

Machine doubles of the source are modelled as rationals (`ℚ`); the opaque
Gazebo handles (world, model, joint, link, collision, SDF element) are
modelled as explicit data, with nullable pointers as `Option`. A `gzthrow`
is modelled as `Except.error` carrying the thrown message.
-/

namespace ApmPlugin

/-- Collision shape kinds, mirroring `gazebo::physics::Base`'s shape types.
`CYLINDER_SHAPE` and `SPHERE_SHAPE` carry the radius returned by `GetRadius()`;
the remaining constructors stand for every other shape kind. -/
inductive Shape where
  | cylinder (radius : ℚ)
  | sphere (radius : ℚ)
  | box
  | plane
  | mesh
deriving DecidableEq, Repr

/-- A collision object (`physics::Collision`): `GetShape()` may be null. -/
structure Collision where
  shape : Option Shape
deriving DecidableEq, Repr

/-- A link (`physics::Link`): `GetCollision(id)` indexes a list of collisions;
an out-of-range index yields a null pointer, modelled by `List.get?`. -/
structure Link where
  collisions : List Collision
deriving DecidableEq, Repr

/-- A joint (`physics::Joint`): only the child link is read by this file. -/
structure Joint where
  child : Link
deriving DecidableEq, Repr

/-- A model handle (`physics::Model`): `GetJoint(name)` is a nullable lookup. -/
structure Model where
  getJoint : String → Option Joint

/-- The SDF configuration element (`sdf::ElementPtr`): `HasElement(name)` plus
typed `Get<double>`, `Get<std::string>`, `Get<int>` accessors. -/
structure Sdf where
  hasElement : String → Bool
  getFloat : String → ℚ
  getString : String → String
  getInt : String → Int

/-- Gazebo physics solver types (`msgs::Physics::Type`); the source selects
`msgs::Physics::ODE`. -/
inductive PhysicsType where
  | ODE
  | BULLET
  | SIMBODY
  | DART
deriving DecidableEq, Repr

/-- The physics configuration message published on `~/physics` at
initialization: solver type and maximum step size. -/
structure PhysicsMsg where
  type : PhysicsType
  max_step_size : ℚ
deriving DecidableEq, Repr

/-- The world handle (`physics::WorldPtr`): the logical step count advanced by
`World::Step`, the pause flag set by `SetPaused`, the simulated clock returned
by `GetSimTime()` as a (seconds, nanoseconds) pair, and the physics engine's
`GetMaxStepSize()`. -/
structure World where
  stepCount : Nat
  paused : Bool
  simSec : Nat
  simNsec : Nat
  maxStepSize : ℚ
deriving DecidableEq, Repr

/-- The plugin member variables read or written by this source file:
`_modelName`, `_nbMotorSpeed`, `_isSimPaused`, `_timeMsgAlreadyDisplayed`
and `_fdm.timestamp`. -/
structure PluginState where
  modelName : String
  nbMotorSpeed : Int
  isSimPaused : Bool
  timeMsgAlreadyDisplayed : Bool
  fdm_timestamp : ℚ
deriving DecidableEq, Repr

/-- Log events emitted through `ROS_INFO` by the embedded methods. -/
inductive LogEvent where
  | stepSizeDiag (size : ℚ)
  | pausedLog
  | resumingLog
  | newModelLog (name : String)
  | roverFoundLog
deriving DecidableEq, Repr

/-- Modelled from the spec: the plugin's constructor lives in the header
`ardupilot_sitl_gazebo_plugin.h`, which is not under `src/`. The spec fixes
the default target vehicle identifier as "rover" (§3), and requires that the
one-time step-size diagnostic has not yet been emitted and that the pause
emulation starts unpaused at the beginning of a run. The motor-servo count
default is diagnostic only (§6) and no claim depends on it; it is taken as 0. -/
def initialPluginState : PluginState :=
  { modelName := "rover"
    nbMotorSpeed := 0
    isSimPaused := false
    timeMsgAlreadyDisplayed := false
    fdm_timestamp := 0 }

/-- Modelled from the spec: the constant `STEP_SIZE_FOR_ARDUPILOT` is defined
in the plugin header, which is not under `src/`; the spec fixes the maximum
physics step size as 0.0025 s (2.5 ms for a 400 Hz loop, §6). -/
def STEP_SIZE_FOR_ARDUPILOT : ℚ := 0.0025

/-- `ArdupilotSitlGazeboPlugin::get_collision_radius` (lines 106-123):
returns 0 on a null collision pointer or a null shape pointer; the radius on
a cylinder or sphere shape; 0 on every other shape kind. -/
def get_collision_radius : Option Collision → ℚ
  | none => 0
  | some c =>
    match c.shape with
    | none => 0
    | some (Shape.cylinder r) => r
    | some (Shape.sphere r) => r
    | some _ => 0

/-- `ArdupilotSitlGazeboPlugin::step_gazebo_sim` (lines 133-141): calls
`_parent_world->Step(1)` unconditionally — there is no guard on the pause
emulation flag, which is why the plugin state is an unused argument. -/
def step_gazebo_sim (_p : PluginState) (w : World) : World :=
  { w with stepCount := w.stepCount + 1 }

/-- `ArdupilotSitlGazeboPlugin::on_gazebo_update` (lines 147-162): records
the simulated clock converted to seconds into `_fdm.timestamp`, and on the
first invocation only logs the measured step size. -/
def on_gazebo_update (w : World) (p : PluginState) :
    PluginState × List LogEvent :=
  let ts : ℚ := (w.simSec : ℚ) + (w.simNsec : ℚ) * (1 / 1000000000)
  let p1 := { p with fdm_timestamp := ts }
  if !p1.timeMsgAlreadyDisplayed then
    ({ p1 with timeMsgAlreadyDisplayed := true },
     [LogEvent.stepSizeDiag w.maxStepSize])
  else
    (p1, [])

/-- Repeated post-step callbacks: the worlds observed at each invocation are
supplied as a list; returns the final plugin state and the per-invocation
log batches, in order. -/
def run_updates (p : PluginState) : List World → PluginState × List (List LogEvent)
  | [] => (p, [])
  | w :: ws =>
    let r := on_gazebo_update w p
    let rest := run_updates r.1 ws
    (rest.1, r.2 :: rest.2)

/-- A `msgs::WorldControl` message as read by this file: only
`has_pause()` is inspected (the carried boolean value is never read). -/
structure WorldControlMsg where
  hasPause : Bool
deriving DecidableEq, Repr

/-- `ArdupilotSitlGazeboPlugin::on_gazebo_control` (lines 168-189): on a
message carrying a pause request, toggles `_isSimPaused`; when the new state
is paused, additionally calls `_parent_world->SetPaused(true)`. Messages with
no pause request are ignored. -/
def on_gazebo_control (msg : WorldControlMsg) (p : PluginState) (w : World) :
    PluginState × World × List LogEvent :=
  if msg.hasPause then
    let p1 := { p with isSimPaused := !p.isSimPaused }
    if p1.isSimPaused then
      (p1, { w with paused := true }, [LogEvent.pausedLog])
    else
      (p1, w, [LogEvent.resumingLog])
  else
    (p, w, [])

/-- Wheel-joint stop configuration written by the resolver: `SetHighStop`,
`SetLowStop` (axis 0) and the ODE parameters `"stop_erp"`, `"stop_cfm"`. -/
structure WheelStopConfig where
  highStop : ℚ
  lowStop : ℚ
  stop_erp : ℚ
  stop_cfm : ℚ
deriving DecidableEq, Repr

/-- The resolver's output: the member variables written by
`on_rover_model_loaded` once all six joints have been found. -/
structure RoverState where
  flWheelJoint : Joint
  frWheelJoint : Joint
  blWheelJoint : Joint
  brWheelJoint : Joint
  frWheelSteeringJoint : Joint
  flWheelSteeringJoint : Joint
  frontTorque : ℚ
  backTorque : ℚ
  tireAngleRange : ℚ
  maxSpeed : ℚ
  maxSteer : ℚ
  aeroLoad : ℚ
  steeredWheelForce : ℚ
  flStops : WheelStopConfig
  frStops : WheelStopConfig
  blStops : WheelStopConfig
  brStops : WheelStopConfig
  flWheelRadius : ℚ
  frWheelRadius : ℚ
  blWheelRadius : ℚ
  brWheelRadius : ℚ
deriving Repr

/-- The parameter-reading idiom of lines 244-277: `HasElement` guard with a
fallback default. -/
def readParam (sdf : Sdf) (name : String) (dflt : ℚ) : ℚ :=
  if sdf.hasElement name then sdf.getFloat name else dflt

/-- `ArdupilotSitlGazeboPlugin::on_rover_model_loaded` (lines 191-316):
looks up the six required joints in source order, throwing (`gzthrow`) the
source's message on the first null lookup; then reads the five vehicle
parameters with their defaults, writes the wheel-joint stops, and derives
each wheel radius from the joint's child link's collision at index 0.
Note the cross-wiring of lines 232-238: `frWheelSteeringJoint` receives the
joint named "front_left_steering_joint" (its failure message says "front
right"), and `flWheelSteeringJoint` the joint named
"front_right_steering_joint" (failure message "front left"). -/
def on_rover_model_loaded (model : Model) (sdf : Sdf) :
    Except String RoverState :=
  match model.getJoint "front_left_wheel_joint" with
  | none => Except.error "could not find front left wheel joint\n"
  | some flW =>
  match model.getJoint "front_right_wheel_joint" with
  | none => Except.error "could not find front right wheel joint\n"
  | some frW =>
  match model.getJoint "rear_left_wheel_joint" with
  | none => Except.error "could not find back left wheel joint\n"
  | some blW =>
  match model.getJoint "rear_right_wheel_joint" with
  | none => Except.error "could not find back right wheel joint\n"
  | some brW =>
  match model.getJoint "front_left_steering_joint" with
  | none => Except.error "could not find front right steering joint\n"
  | some frS =>
  match model.getJoint "front_right_steering_joint" with
  | none => Except.error "could not find front left steering joint\n"
  | some flS =>
  Except.ok
    { flWheelJoint := flW
      frWheelJoint := frW
      blWheelJoint := blW
      brWheelJoint := brW
      frWheelSteeringJoint := frS
      flWheelSteeringJoint := flS
      frontTorque := readParam sdf "front_torque" 0
      backTorque := readParam sdf "back_torque" 2000
      tireAngleRange := 0
      maxSpeed := readParam sdf "max_speed" 10
      maxSteer := readParam sdf "max_steer" 0.6
      aeroLoad := readParam sdf "aero_load" 0.1
      steeredWheelForce := 5000
      flStops := { highStop := 0, lowStop := 0, stop_erp := 0, stop_cfm := 10 }
      frStops := { highStop := 0, lowStop := 0, stop_erp := 0, stop_cfm := 10 }
      blStops := { highStop := 0, lowStop := 0, stop_erp := 0, stop_cfm := 10 }
      brStops := { highStop := 0, lowStop := 0, stop_erp := 0, stop_cfm := 10 }
      flWheelRadius := get_collision_radius (flW.child.collisions.get? 0)
      frWheelRadius := get_collision_radius (frW.child.collisions.get? 0)
      blWheelRadius := get_collision_radius (blW.child.collisions.get? 0)
      brWheelRadius := get_collision_radius (brW.child.collisions.get? 0) }

/-- `ArdupilotSitlGazeboPlugin::on_gazebo_modelInfo` (lines 322-333): logs the
model name; calls `on_rover_model_loaded` if and only if the message's name
equals the literal "rover" (`!_msg->name().compare("rover")`). The plugin
state — in particular the configured `_modelName` — is available to the
method but never consulted, which the unused argument makes explicit. -/
def on_gazebo_modelInfo (_p : PluginState) (msgName : String)
    (model : Model) (sdf : Sdf) :
    List LogEvent × Option (Except String RoverState) :=
  if msgName == "rover" then
    ([LogEvent.newModelLog msgName, LogEvent.roverFoundLog],
     some (on_rover_model_loaded model sdf))
  else
    ([LogEvent.newModelLog msgName], none)

/-- The outcome of `init_gazebo_side`: the updated plugin state, the world
after `SetPaused(true)`, and the physics messages published on `~/physics`. -/
structure InitResult where
  plugin : PluginState
  world : World
  published : List PhysicsMsg
deriving Repr

/-- `ArdupilotSitlGazeboPlugin::init_gazebo_side` (lines 44-100): reads the
optional `UAV_MODEL` and `NB_SERVOS_MOTOR_SPEED` fields (keeping the current
members when absent), pauses the world, publishes a single `msgs::Physics`
message with type `ODE` and `max_step_size = STEP_SIZE_FOR_ARDUPILOT`, and
returns true. The C++ returns `bool` and never returns false; a null world
handle crashes at `_parent_world->GetName()`, modelled as `none`. -/
def init_gazebo_side (world : Option World) (sdf : Sdf) (p : PluginState) :
    Option InitResult :=
  match world with
  | none => none
  | some w =>
    let p1 := if sdf.hasElement "UAV_MODEL" then
        { p with modelName := sdf.getString "UAV_MODEL" } else p
    let p2 := if sdf.hasElement "NB_SERVOS_MOTOR_SPEED" then
        { p1 with nbMotorSpeed := sdf.getInt "NB_SERVOS_MOTOR_SPEED" } else p1
    some
      { plugin := p2
        world := { w with paused := true }
        published :=
          [{ type := PhysicsType.ODE
             max_step_size := STEP_SIZE_FOR_ARDUPILOT }] }

/-! ## Concrete fixtures used to exercise the definitions -/

/-- An SDF element with no fields at all. -/
def sdfEmpty : Sdf :=
  { hasElement := fun _ => false
    getFloat := fun _ => 0
    getString := fun _ => ""
    getInt := fun _ => 0 }

/-- An SDF element whose only field is `UAV_MODEL = "drone1"`. -/
def sdfDrone : Sdf :=
  { hasElement := fun name => name == "UAV_MODEL"
    getFloat := fun _ => 0
    getString := fun name => if name == "UAV_MODEL" then "drone1" else ""
    getInt := fun _ => 0 }

/-- A concrete world handle. -/
def w0 : World :=
  { stepCount := 0
    paused := true
    simSec := 1
    simNsec := 500000000
    maxStepSize := 0.0025 }

/-- A joint whose child link carries one cylinder collision of radius 3/10. -/
def jointA : Joint :=
  { child := { collisions := [{ shape := some (Shape.cylinder (3 / 10)) }] } }

/-- The six joint names looked up by `on_rover_model_loaded`. -/
def requiredNames : List String :=
  ["front_left_wheel_joint", "front_right_wheel_joint",
   "rear_left_wheel_joint", "rear_right_wheel_joint",
   "front_left_steering_joint", "front_right_steering_joint"]

/-- A model providing all six required joints (each resolving to `jointA`). -/
def mFull : Model :=
  { getJoint := fun name =>
      if requiredNames.contains name then some jointA else none }

/-- `mFull` with the joint of the given name removed. -/
def mMissing (missing : String) : Model :=
  { getJoint := fun name =>
      if name == missing then none else mFull.getJoint name }

/-- The resolver output on `mFull` with `sdfEmpty`. -/
def stFull : RoverState :=
  { flWheelJoint := jointA
    frWheelJoint := jointA
    blWheelJoint := jointA
    brWheelJoint := jointA
    frWheelSteeringJoint := jointA
    flWheelSteeringJoint := jointA
    frontTorque := 0
    backTorque := 2000
    tireAngleRange := 0
    maxSpeed := 10
    maxSteer := 0.6
    aeroLoad := 0.1
    steeredWheelForce := 5000
    flStops := { highStop := 0, lowStop := 0, stop_erp := 0, stop_cfm := 10 }
    frStops := { highStop := 0, lowStop := 0, stop_erp := 0, stop_cfm := 10 }
    blStops := { highStop := 0, lowStop := 0, stop_erp := 0, stop_cfm := 10 }
    brStops := { highStop := 0, lowStop := 0, stop_erp := 0, stop_cfm := 10 }
    flWheelRadius := 3 / 10
    frWheelRadius := 3 / 10
    blWheelRadius := 3 / 10
    brWheelRadius := 3 / 10 }

end ApmPlugin

namespace ApmPlugin

/-! ## Claim theorems -/

/-- C1: invoking `step_gazebo_sim` N times advances the world's logical step
count by exactly N; each single call advances it by exactly one tick for every
plugin state (in particular for either value of the pause flag), and the
result does not depend on the plugin state at all — there is no guard on
`_isSimPaused`. -/
theorem C1_step_advances_count (n : Nat) (p : PluginState) (w : World) :
    ((step_gazebo_sim p)^[n] w).stepCount = w.stepCount + n ∧
    (step_gazebo_sim p w).stepCount = w.stepCount + 1 ∧
    ∀ q : PluginState, step_gazebo_sim p w = step_gazebo_sim q w := by
  refine ⟨?_, rfl, fun q => rfl⟩
  induction n generalizing w with
  | zero => simp
  | succ k ih =>
      rw [Function.iterate_succ_apply, ih]
      simp [step_gazebo_sim]
      omega

/-- C4: `get_collision_radius` returns 0 on a null collision handle or a null
shape handle, the radius on a cylinder or sphere, and 0 on every other shape
kind; it is a total function, so no error is ever raised. -/
theorem C4_collision_radius :
    get_collision_radius none = 0 ∧
    get_collision_radius (some { shape := none }) = 0 ∧
    (∀ r : ℚ,
      get_collision_radius (some { shape := some (Shape.cylinder r) }) = r) ∧
    (∀ r : ℚ,
      get_collision_radius (some { shape := some (Shape.sphere r) }) = r) ∧
    get_collision_radius (some { shape := some Shape.box }) = 0 ∧
    get_collision_radius (some { shape := some Shape.plane }) = 0 ∧
    get_collision_radius (some { shape := some Shape.mesh }) = 0 :=
  ⟨rfl, rfl, fun _ => rfl, fun _ => rfl, rfl, rfl, rfl⟩

/-- The behaviour C5 asserts of `on_gazebo_control` from a state `p`:
toggle semantics for pause-carrying messages, no effect for others, and no
effect on the step count nor on subsequent `step_gazebo_sim` advances. -/
def pauseToggleSpec (p : PluginState) (w : World) : Prop :=
  (on_gazebo_control { hasPause := true } p w).1.isSimPaused = true ∧
  (on_gazebo_control { hasPause := true }
      (on_gazebo_control { hasPause := true } p w).1
      (on_gazebo_control { hasPause := true } p w).2.1).1.isSimPaused = false ∧
  on_gazebo_control { hasPause := false } p w = (p, w, []) ∧
  (∀ msg : WorldControlMsg,
    (on_gazebo_control msg p w).2.1.stepCount = w.stepCount) ∧
  (∀ (msg : WorldControlMsg) (q : PluginState),
    (step_gazebo_sim q (on_gazebo_control msg p w).2.1).stepCount
      = w.stepCount + 1)

/-- C5: starting unpaused, the first pause-carrying control event leaves
`_isSimPaused` true and a second one leaves it false (XOR toggle, not an
absolute assignment); an event with no pause request changes nothing; and the
handler never alters the logical step count nor the advance produced by a
subsequent `step_gazebo_sim`. -/
theorem C5_pause_toggle (p : PluginState) (w : World)
    (h : p.isSimPaused = false) : pauseToggleSpec p w := by
  refine ⟨?_, ?_, ?_, ?_, ?_⟩
  · simp [on_gazebo_control, h]
  · simp [on_gazebo_control, h]
  · simp [on_gazebo_control]
  · intro msg
    cases hm : msg.hasPause <;> simp [on_gazebo_control, hm, h]
  · intro msg q
    cases hm : msg.hasPause <;>
      simp [on_gazebo_control, step_gazebo_sim, hm, h]

/-- Witness for C5 at the initial plugin state and a concrete world. -/
theorem C5_pause_toggle_witness : pauseToggleSpec initialPluginState w0 :=
  C5_pause_toggle initialPluginState w0 rfl

/-- C8: `init_gazebo_side` fails (crashes on the null world dereference) only
when the world handle is unusable; with any usable world handle it succeeds
for every configuration and plugin state, publishes exactly one physics
configuration message with solver type `ODE` and maximum step size 0.0025,
forces the world into the paused baseline, and treats the absence of
`UAV_MODEL` or `NB_SERVOS_MOTOR_SPEED` as a fallback to the current members,
never as a failure. -/
theorem C8_init_contract (w : World) (sdf : Sdf) (p : PluginState) :
    init_gazebo_side none sdf p = none ∧
    (init_gazebo_side (some w) sdf p).isSome = true ∧
    (init_gazebo_side (some w) sdf p).map (fun r => r.published)
      = some [{ type := PhysicsType.ODE, max_step_size := (0.0025 : ℚ) }] ∧
    (init_gazebo_side (some w) sdf p).map (fun r => r.world.paused)
      = some true ∧
    (init_gazebo_side (some w) sdf p).map (fun r => r.world.stepCount)
      = some w.stepCount ∧
    (init_gazebo_side (some w) sdf p).map (fun r => r.plugin.modelName)
      = some (if sdf.hasElement "UAV_MODEL"
              then sdf.getString "UAV_MODEL" else p.modelName) ∧
    (init_gazebo_side (some w) sdf p).map (fun r => r.plugin.nbMotorSpeed)
      = some (if sdf.hasElement "NB_SERVOS_MOTOR_SPEED"
              then sdf.getInt "NB_SERVOS_MOTOR_SPEED" else p.nbMotorSpeed) := by
  refine ⟨rfl, ?_, ?_, ?_, ?_, ?_, ?_⟩ <;>
    cases hU : sdf.hasElement "UAV_MODEL" <;>
      cases hN : sdf.hasElement "NB_SERVOS_MOTOR_SPEED" <;>
        simp [init_gazebo_side, hU, hN, STEP_SIZE_FOR_ARDUPILOT]

/-- C2 counterexample: configure the plugin via `init_gazebo_side` with
`UAV_MODEL = "drone1"`, so the configured target vehicle identifier is
"drone1". The claim then demands that a model-load event named "drone1"
triggers resolution and one named "rover" does not; the code does the exact
opposite, because `on_gazebo_modelInfo` compares against the literal "rover"
and never consults `_modelName`. -/
theorem C2_counterexample :
    ((init_gazebo_side (some w0) sdfDrone initialPluginState).map
        (fun r => r.plugin.modelName) = some "drone1") ∧
    (on_gazebo_modelInfo { initialPluginState with modelName := "drone1" }
        "drone1" mFull sdfEmpty).2.isSome = false ∧
    (on_gazebo_modelInfo { initialPluginState with modelName := "drone1" }
        "rover" mFull sdfEmpty).2.isSome = true :=
  ⟨rfl, rfl, rfl⟩

/-- C2 (amended): `on_gazebo_modelInfo` invokes the Vehicle Parameter
Resolver if and only if the event's model name equals the literal "rover",
for every plugin state — in particular independently of the configured
`_modelName`; any other name triggers no resolution. -/
theorem C2_detector_matches_literal_rover (p : PluginState) (msgName : String)
    (m : Model) (sdf : Sdf) :
    (on_gazebo_modelInfo p msgName m sdf).2.isSome = (msgName == "rover") := by
  cases hm : msgName == "rover" <;> simp [on_gazebo_modelInfo, hm]

/-! ## The six required joints and resolver inversion -/

/-- The six joints `on_rover_model_loaded` requires. -/
inductive RequiredJoint where
  | frontLeftWheel
  | frontRightWheel
  | rearLeftWheel
  | rearRightWheel
  | frontLeftSteering
  | frontRightSteering
deriving DecidableEq, Repr

/-- The name each required joint is looked up under (source lines 214-236). -/
def RequiredJoint.lookupName : RequiredJoint → String
  | RequiredJoint.frontLeftWheel => "front_left_wheel_joint"
  | RequiredJoint.frontRightWheel => "front_right_wheel_joint"
  | RequiredJoint.rearLeftWheel => "rear_left_wheel_joint"
  | RequiredJoint.rearRightWheel => "rear_right_wheel_joint"
  | RequiredJoint.frontLeftSteering => "front_left_steering_joint"
  | RequiredJoint.frontRightSteering => "front_right_steering_joint"

/-- The `gzthrow` message the source actually emits when the lookup for the
given joint returns null (lines 214-238). For the two steering joints the
message names the opposite side from the name looked up. -/
def RequiredJoint.thrownDiag : RequiredJoint → String
  | RequiredJoint.frontLeftWheel => "could not find front left wheel joint\n"
  | RequiredJoint.frontRightWheel => "could not find front right wheel joint\n"
  | RequiredJoint.rearLeftWheel => "could not find back left wheel joint\n"
  | RequiredJoint.rearRightWheel => "could not find back right wheel joint\n"
  | RequiredJoint.frontLeftSteering =>
      "could not find front right steering joint\n"
  | RequiredJoint.frontRightSteering =>
      "could not find front left steering joint\n"

/-- Spec-side, following the claim's words: the diagnostic in the source's
message style that names the given joint (the source calls the rear wheels
"back left/right wheel"). This is what a diagnostic must be to "name that
missing joint". -/
def RequiredJoint.namingDiag : RequiredJoint → String
  | RequiredJoint.frontLeftWheel => "could not find front left wheel joint\n"
  | RequiredJoint.frontRightWheel => "could not find front right wheel joint\n"
  | RequiredJoint.rearLeftWheel => "could not find back left wheel joint\n"
  | RequiredJoint.rearRightWheel => "could not find back right wheel joint\n"
  | RequiredJoint.frontLeftSteering =>
      "could not find front left steering joint\n"
  | RequiredJoint.frontRightSteering =>
      "could not find front right steering joint\n"

/-- The model is missing exactly the required joint `j`: its lookup returns
null and every other required joint's lookup succeeds. -/
def missingExactly (model : Model) (j : RequiredJoint) : Prop :=
  model.getJoint (RequiredJoint.lookupName j) = none ∧
  ∀ j' : RequiredJoint, j' ≠ j →
    (model.getJoint (RequiredJoint.lookupName j')).isSome = true

/-- Inversion of a successful resolution: all six lookups returned joints,
and the result is exactly the record the source builds from them. -/
theorem rover_loaded_ok_elim (model : Model) (sdf : Sdf) (st : RoverState)
    (h : on_rover_model_loaded model sdf = Except.ok st) :
    ∃ flW frW blW brW frS flS : Joint,
      model.getJoint "front_left_wheel_joint" = some flW ∧
      model.getJoint "front_right_wheel_joint" = some frW ∧
      model.getJoint "rear_left_wheel_joint" = some blW ∧
      model.getJoint "rear_right_wheel_joint" = some brW ∧
      model.getJoint "front_left_steering_joint" = some frS ∧
      model.getJoint "front_right_steering_joint" = some flS ∧
      st = { flWheelJoint := flW
             frWheelJoint := frW
             blWheelJoint := blW
             brWheelJoint := brW
             frWheelSteeringJoint := frS
             flWheelSteeringJoint := flS
             frontTorque := readParam sdf "front_torque" 0
             backTorque := readParam sdf "back_torque" 2000
             tireAngleRange := 0
             maxSpeed := readParam sdf "max_speed" 10
             maxSteer := readParam sdf "max_steer" 0.6
             aeroLoad := readParam sdf "aero_load" 0.1
             steeredWheelForce := 5000
             flStops :=
               { highStop := 0, lowStop := 0, stop_erp := 0, stop_cfm := 10 }
             frStops :=
               { highStop := 0, lowStop := 0, stop_erp := 0, stop_cfm := 10 }
             blStops :=
               { highStop := 0, lowStop := 0, stop_erp := 0, stop_cfm := 10 }
             brStops :=
               { highStop := 0, lowStop := 0, stop_erp := 0, stop_cfm := 10 }
             flWheelRadius :=
               get_collision_radius (flW.child.collisions.get? 0)
             frWheelRadius :=
               get_collision_radius (frW.child.collisions.get? 0)
             blWheelRadius :=
               get_collision_radius (blW.child.collisions.get? 0)
             brWheelRadius :=
               get_collision_radius (brW.child.collisions.get? 0) } := by
  unfold on_rover_model_loaded at h
  cases hfl : model.getJoint "front_left_wheel_joint" <;> rw [hfl] at h
  case none => simp at h
  case some flW =>
  cases hfr : model.getJoint "front_right_wheel_joint" <;> rw [hfr] at h
  case none => simp at h
  case some frW =>
  cases hbl : model.getJoint "rear_left_wheel_joint" <;> rw [hbl] at h
  case none => simp at h
  case some blW =>
  cases hbr : model.getJoint "rear_right_wheel_joint" <;> rw [hbr] at h
  case none => simp at h
  case some brW =>
  cases hfs : model.getJoint "front_left_steering_joint" <;> rw [hfs] at h
  case none => simp at h
  case some frS =>
  cases hls : model.getJoint "front_right_steering_joint" <;> rw [hls] at h
  case none => simp at h
  case some flS =>
  injection h with h
  exact ⟨flW, frW, blW, brW, frS, flS, rfl, rfl, rfl, rfl, rfl, rfl, h.symm⟩

/-- The five resolved parameters C6 asserts: each equals the configured
value when the field is present and its documented default when absent. -/
def resolvedParamsSpec (sdf : Sdf) (st : RoverState) : Prop :=
  st.frontTorque = (if sdf.hasElement "front_torque"
      then sdf.getFloat "front_torque" else 0) ∧
  st.backTorque = (if sdf.hasElement "back_torque"
      then sdf.getFloat "back_torque" else 2000) ∧
  st.maxSpeed = (if sdf.hasElement "max_speed"
      then sdf.getFloat "max_speed" else 10) ∧
  st.maxSteer = (if sdf.hasElement "max_steer"
      then sdf.getFloat "max_steer" else 0.6) ∧
  st.aeroLoad = (if sdf.hasElement "aero_load"
      then sdf.getFloat "aero_load" else 0.1)

/-- C6: on every successful resolution the five vehicle parameters equal the
provided values when present and the documented defaults (0, 2000, 10, 0.6,
0.1) when absent; and absence of a field is never an error — the same model
resolves successfully under every configuration. -/
theorem C6_resolver_params (model : Model) (sdf : Sdf) (st : RoverState)
    (h : on_rover_model_loaded model sdf = Except.ok st) :
    resolvedParamsSpec sdf st ∧
    ∀ sdf' : Sdf, ∃ st' : RoverState,
      on_rover_model_loaded model sdf' = Except.ok st' := by
  obtain ⟨flW, frW, blW, brW, frS, flS, hfl, hfr, hbl, hbr, hfs, hls, hst⟩ :=
    rover_loaded_ok_elim model sdf st h
  subst hst
  refine ⟨⟨rfl, rfl, rfl, rfl, rfl⟩, ?_⟩
  intro sdf'
  unfold on_rover_model_loaded
  rw [hfl, hfr, hbl, hbr, hfs, hls]
  exact ⟨_, rfl⟩

/-- Witness for C6 on a concrete model with all six joints and the empty
configuration, where every parameter takes its default. -/
theorem C6_resolver_params_witness :
    resolvedParamsSpec sdfEmpty stFull ∧
    ∀ sdf' : Sdf, ∃ st' : RoverState,
      on_rover_model_loaded mFull sdf' = Except.ok st' :=
  C6_resolver_params mFull sdfEmpty stFull rfl

/-- The wheel-joint configuration C7 asserts after a successful resolution:
zero stop bounds, `stop_erp = 0`, `stop_cfm = 10`, and each wheel radius
obtained by passing the joint's child link's collision at index 0 to
`get_collision_radius`. -/
def wheelConfigSpec (st : RoverState) : Prop :=
  st.flStops = { highStop := 0, lowStop := 0, stop_erp := 0, stop_cfm := 10 } ∧
  st.frStops = { highStop := 0, lowStop := 0, stop_erp := 0, stop_cfm := 10 } ∧
  st.blStops = { highStop := 0, lowStop := 0, stop_erp := 0, stop_cfm := 10 } ∧
  st.brStops = { highStop := 0, lowStop := 0, stop_erp := 0, stop_cfm := 10 } ∧
  st.flWheelRadius
    = get_collision_radius (st.flWheelJoint.child.collisions.get? 0) ∧
  st.frWheelRadius
    = get_collision_radius (st.frWheelJoint.child.collisions.get? 0) ∧
  st.blWheelRadius
    = get_collision_radius (st.blWheelJoint.child.collisions.get? 0) ∧
  st.brWheelRadius
    = get_collision_radius (st.brWheelJoint.child.collisions.get? 0)

/-- C7: after every successful resolution, each of the four wheel joints has
both rotational stop bounds zero, stop-restitution (`stop_erp`) 0 and
stop-damping (`stop_cfm`) 10.0, and each wheel radius is derived from the
joint's child link's collision at index 0 via the Collision Geometry
Inspector. -/
theorem C7_wheel_config (model : Model) (sdf : Sdf) (st : RoverState)
    (h : on_rover_model_loaded model sdf = Except.ok st) :
    wheelConfigSpec st := by
  obtain ⟨flW, frW, blW, brW, frS, flS, hfl, hfr, hbl, hbr, hfs, hls, hst⟩ :=
    rover_loaded_ok_elim model sdf st h
  subst hst
  exact ⟨rfl, rfl, rfl, rfl, rfl, rfl, rfl, rfl⟩

/-- Witness for C7 on the concrete fully-joint model. -/
theorem C7_wheel_config_witness : wheelConfigSpec stFull :=
  C7_wheel_config mFull sdfEmpty stFull rfl

/-- When the model is missing exactly the required joint `j`, resolution
throws the source's message for `j`'s lookup (`RequiredJoint.thrownDiag`). -/
theorem rover_loaded_missing (model : Model) (sdf : Sdf) (j : RequiredJoint)
    (hm : missingExactly model j) :
    on_rover_model_loaded model sdf
      = Except.error (RequiredJoint.thrownDiag j) := by
  obtain ⟨hnone, hoth⟩ := hm
  cases j
  case frontLeftWheel =>
    have e1 : model.getJoint "front_left_wheel_joint" = none := hnone
    unfold on_rover_model_loaded
    rw [e1]
    rfl
  case frontRightWheel =>
    obtain ⟨j1, h1⟩ := Option.isSome_iff_exists.mp
      (hoth RequiredJoint.frontLeftWheel (by decide))
    have e1 : model.getJoint "front_left_wheel_joint" = some j1 := h1
    have e2 : model.getJoint "front_right_wheel_joint" = none := hnone
    unfold on_rover_model_loaded
    rw [e1, e2]
    rfl
  case rearLeftWheel =>
    obtain ⟨j1, h1⟩ := Option.isSome_iff_exists.mp
      (hoth RequiredJoint.frontLeftWheel (by decide))
    obtain ⟨j2, h2⟩ := Option.isSome_iff_exists.mp
      (hoth RequiredJoint.frontRightWheel (by decide))
    have e1 : model.getJoint "front_left_wheel_joint" = some j1 := h1
    have e2 : model.getJoint "front_right_wheel_joint" = some j2 := h2
    have e3 : model.getJoint "rear_left_wheel_joint" = none := hnone
    unfold on_rover_model_loaded
    rw [e1, e2, e3]
    rfl
  case rearRightWheel =>
    obtain ⟨j1, h1⟩ := Option.isSome_iff_exists.mp
      (hoth RequiredJoint.frontLeftWheel (by decide))
    obtain ⟨j2, h2⟩ := Option.isSome_iff_exists.mp
      (hoth RequiredJoint.frontRightWheel (by decide))
    obtain ⟨j3, h3⟩ := Option.isSome_iff_exists.mp
      (hoth RequiredJoint.rearLeftWheel (by decide))
    have e1 : model.getJoint "front_left_wheel_joint" = some j1 := h1
    have e2 : model.getJoint "front_right_wheel_joint" = some j2 := h2
    have e3 : model.getJoint "rear_left_wheel_joint" = some j3 := h3
    have e4 : model.getJoint "rear_right_wheel_joint" = none := hnone
    unfold on_rover_model_loaded
    rw [e1, e2, e3, e4]
    rfl
  case frontLeftSteering =>
    obtain ⟨j1, h1⟩ := Option.isSome_iff_exists.mp
      (hoth RequiredJoint.frontLeftWheel (by decide))
    obtain ⟨j2, h2⟩ := Option.isSome_iff_exists.mp
      (hoth RequiredJoint.frontRightWheel (by decide))
    obtain ⟨j3, h3⟩ := Option.isSome_iff_exists.mp
      (hoth RequiredJoint.rearLeftWheel (by decide))
    obtain ⟨j4, h4⟩ := Option.isSome_iff_exists.mp
      (hoth RequiredJoint.rearRightWheel (by decide))
    have e1 : model.getJoint "front_left_wheel_joint" = some j1 := h1
    have e2 : model.getJoint "front_right_wheel_joint" = some j2 := h2
    have e3 : model.getJoint "rear_left_wheel_joint" = some j3 := h3
    have e4 : model.getJoint "rear_right_wheel_joint" = some j4 := h4
    have e5 : model.getJoint "front_left_steering_joint" = none := hnone
    unfold on_rover_model_loaded
    rw [e1, e2, e3, e4, e5]
    rfl
  case frontRightSteering =>
    obtain ⟨j1, h1⟩ := Option.isSome_iff_exists.mp
      (hoth RequiredJoint.frontLeftWheel (by decide))
    obtain ⟨j2, h2⟩ := Option.isSome_iff_exists.mp
      (hoth RequiredJoint.frontRightWheel (by decide))
    obtain ⟨j3, h3⟩ := Option.isSome_iff_exists.mp
      (hoth RequiredJoint.rearLeftWheel (by decide))
    obtain ⟨j4, h4⟩ := Option.isSome_iff_exists.mp
      (hoth RequiredJoint.rearRightWheel (by decide))
    obtain ⟨j5, h5⟩ := Option.isSome_iff_exists.mp
      (hoth RequiredJoint.frontLeftSteering (by decide))
    have e1 : model.getJoint "front_left_wheel_joint" = some j1 := h1
    have e2 : model.getJoint "front_right_wheel_joint" = some j2 := h2
    have e3 : model.getJoint "rear_left_wheel_joint" = some j3 := h3
    have e4 : model.getJoint "rear_right_wheel_joint" = some j4 := h4
    have e5 : model.getJoint "front_left_steering_joint" = some j5 := h5
    have e6 : model.getJoint "front_right_steering_joint" = none := hnone
    unfold on_rover_model_loaded
    rw [e1, e2, e3, e4, e5, e6]
    rfl

/-- When every required joint's lookup succeeds, resolution succeeds. -/
theorem rover_loaded_success (model : Model) (sdf : Sdf)
    (hall : ∀ j : RequiredJoint,
      (model.getJoint (RequiredJoint.lookupName j)).isSome = true) :
    ∃ st : RoverState, on_rover_model_loaded model sdf = Except.ok st := by
  obtain ⟨j1, h1⟩ := Option.isSome_iff_exists.mp
    (hall RequiredJoint.frontLeftWheel)
  obtain ⟨j2, h2⟩ := Option.isSome_iff_exists.mp
    (hall RequiredJoint.frontRightWheel)
  obtain ⟨j3, h3⟩ := Option.isSome_iff_exists.mp
    (hall RequiredJoint.rearLeftWheel)
  obtain ⟨j4, h4⟩ := Option.isSome_iff_exists.mp
    (hall RequiredJoint.rearRightWheel)
  obtain ⟨j5, h5⟩ := Option.isSome_iff_exists.mp
    (hall RequiredJoint.frontLeftSteering)
  obtain ⟨j6, h6⟩ := Option.isSome_iff_exists.mp
    (hall RequiredJoint.frontRightSteering)
  have e1 : model.getJoint "front_left_wheel_joint" = some j1 := h1
  have e2 : model.getJoint "front_right_wheel_joint" = some j2 := h2
  have e3 : model.getJoint "rear_left_wheel_joint" = some j3 := h3
  have e4 : model.getJoint "rear_right_wheel_joint" = some j4 := h4
  have e5 : model.getJoint "front_left_steering_joint" = some j5 := h5
  have e6 : model.getJoint "front_right_steering_joint" = some j6 := h6
  unfold on_rover_model_loaded
  rw [e1, e2, e3, e4, e5, e6]
  exact ⟨_, rfl⟩

/-- C3 counterexample: a model missing exactly the front-left steering joint
(all five other required joints present) makes resolution fail with the
diagnostic "could not find front right steering joint", which does not name
the missing front-left steering joint — it names the opposite side. -/
theorem C3_counterexample :
    on_rover_model_loaded (mMissing "front_left_steering_joint") sdfEmpty
      = Except.error "could not find front right steering joint\n" ∧
    "could not find front right steering joint\n"
      ≠ RequiredJoint.namingDiag RequiredJoint.frontLeftSteering :=
  ⟨rfl, by decide⟩

/-- C3 (amended): a model missing exactly one required joint makes resolution
fail with the fatal message the source throws for that lookup
(`RequiredJoint.thrownDiag`), which names the missing joint for the four
wheel joints but names the opposite side for the two front steering joints;
a model with all six joints present resolves successfully. -/
theorem C3_joint_diagnostics (model : Model) (sdf : Sdf) :
    (∀ j : RequiredJoint, missingExactly model j →
      on_rover_model_loaded model sdf
        = Except.error (RequiredJoint.thrownDiag j)) ∧
    ((∀ j : RequiredJoint,
        (model.getJoint (RequiredJoint.lookupName j)).isSome = true) →
      ∃ st : RoverState, on_rover_model_loaded model sdf = Except.ok st) :=
  ⟨fun j hm => rover_loaded_missing model sdf j hm,
   fun hall => rover_loaded_success model sdf hall⟩

/-- Witness for C3 (amended) on concrete models: one missing exactly the
rear-left wheel joint, and one with all six joints. -/
theorem C3_joint_diagnostics_witness :
    on_rover_model_loaded (mMissing "rear_left_wheel_joint") sdfEmpty
      = Except.error (RequiredJoint.thrownDiag RequiredJoint.rearLeftWheel) ∧
    ∃ st : RoverState, on_rover_model_loaded mFull sdfEmpty = Except.ok st :=
  ⟨(C3_joint_diagnostics (mMissing "rear_left_wheel_joint") sdfEmpty).1
      RequiredJoint.rearLeftWheel
      ⟨rfl, by intro j' hj; cases j' <;> first | exact absurd rfl hj | rfl⟩,
   (C3_joint_diagnostics mFull sdfEmpty).2 (by intro j; cases j <;> rfl)⟩

/-- What C10 asserts of the resolver's steering-joint handling. -/
def steeringCrossSpec (model : Model) (sdf : Sdf) : Prop :=
  (∀ st : RoverState, on_rover_model_loaded model sdf = Except.ok st →
    model.getJoint "front_left_steering_joint"
        = some st.frWheelSteeringJoint ∧
    model.getJoint "front_right_steering_joint"
        = some st.flWheelSteeringJoint) ∧
  (missingExactly model RequiredJoint.frontLeftSteering →
    on_rover_model_loaded model sdf
      = Except.error "could not find front right steering joint\n") ∧
  (missingExactly model RequiredJoint.frontRightSteering →
    on_rover_model_loaded model sdf
      = Except.error "could not find front left steering joint\n")

/-- C10: the two front steering joint handles are stored cross-wise — the
`frWheelSteeringJoint` field receives the joint looked up under
"front_left_steering_joint" and the `flWheelSteeringJoint` field the joint
looked up under "front_right_steering_joint" — and each of these two
lookups' missing-joint diagnostics names the opposite side from the name it
looked up. -/
theorem C10_steering_cross (model : Model) (sdf : Sdf) :
    steeringCrossSpec model sdf := by
  refine ⟨?_, ?_, ?_⟩
  · intro st h
    obtain ⟨flW, frW, blW, brW, frS, flS, hfl, hfr, hbl, hbr, hfs, hls, hst⟩ :=
      rover_loaded_ok_elim model sdf st h
    subst hst
    exact ⟨hfs, hls⟩
  · exact fun hm =>
      rover_loaded_missing model sdf RequiredJoint.frontLeftSteering hm
  · exact fun hm =>
      rover_loaded_missing model sdf RequiredJoint.frontRightSteering hm

/-- Witness for C10: the wiring on the concrete fully-joint model, and the
crossed diagnostic on a model missing the front-left steering joint. -/
theorem C10_steering_cross_witness :
    mFull.getJoint "front_left_steering_joint"
        = some stFull.frWheelSteeringJoint ∧
    mFull.getJoint "front_right_steering_joint"
        = some stFull.flWheelSteeringJoint ∧
    on_rover_model_loaded (mMissing "front_left_steering_joint") sdfEmpty
      = Except.error "could not find front right steering joint\n" :=
  ⟨((C10_steering_cross mFull sdfEmpty).1 stFull rfl).1,
   ((C10_steering_cross mFull sdfEmpty).1 stFull rfl).2,
   (C10_steering_cross (mMissing "front_left_steering_joint") sdfEmpty).2.1
      ⟨rfl, by intro j' hj; cases j' <;> first | exact absurd rfl hj | rfl⟩⟩

/-- Whether a log batch contains the one-time step-size diagnostic. -/
def emitsDiag (logs : List LogEvent) : Bool :=
  logs.any fun e =>
    match e with
    | LogEvent.stepSizeDiag _ => true
    | _ => false

/-- A single post-step callback records the simulated clock converted to
seconds into the shared timestamp. -/
theorem on_gazebo_update_timestamp (w : World) (p : PluginState) :
    (on_gazebo_update w p).1.fdm_timestamp
      = (w.simSec : ℚ) + (w.simNsec : ℚ) * (1 / 1000000000) := by
  cases h : p.timeMsgAlreadyDisplayed <;> simp [on_gazebo_update, h]

/-- After any post-step callback the diagnostic flag is set. -/
theorem on_gazebo_update_flag (w : World) (p : PluginState) :
    (on_gazebo_update w p).1.timeMsgAlreadyDisplayed = true := by
  cases h : p.timeMsgAlreadyDisplayed <;> simp [on_gazebo_update, h]

/-- The logs of a single post-step callback: the step-size diagnostic exactly
when the flag was still clear. -/
theorem on_gazebo_update_logs (w : World) (p : PluginState) :
    (on_gazebo_update w p).2
      = if p.timeMsgAlreadyDisplayed then []
        else [LogEvent.stepSizeDiag w.maxStepSize] := by
  cases h : p.timeMsgAlreadyDisplayed <;> simp [on_gazebo_update, h]

/-- Unfolding `run_updates` on a cons cell. -/
theorem run_updates_cons (p : PluginState) (w : World) (ws : List World) :
    run_updates p (w :: ws)
      = ((run_updates (on_gazebo_update w p).1 ws).1,
         (on_gazebo_update w p).2
           :: (run_updates (on_gazebo_update w p).1 ws).2) := rfl

/-- Once the diagnostic flag is set, no later invocation ever emits the
step-size diagnostic again. -/
theorem run_updates_silent (ws : List World) :
    ∀ (p : PluginState), p.timeMsgAlreadyDisplayed = true →
      ∀ i : Nat, emitsDiag ((run_updates p ws).2.getD i []) = false := by
  induction ws with
  | nil =>
      intro p h i
      simp [run_updates, emitsDiag]
  | cons w ws ih =>
      intro p h i
      rw [run_updates_cons]
      cases i with
      | zero => simp [on_gazebo_update_logs, h, emitsDiag]
      | succ j =>
          simp only [List.getD_cons_succ]
          exact ih (on_gazebo_update w p).1 (on_gazebo_update_flag w p) j

/-- What C9 asserts of a run of post-step callbacks from state `p` over the
worlds `ws`: the step-size diagnostic appears in the first invocation's logs
and in no later invocation's, and every invocation records the simulated
clock, converted to seconds, into the shared timestamp. -/
def postStepSpec (p : PluginState) (ws : List World) : Prop :=
  (∀ i : Nat, i < ws.length →
    emitsDiag ((run_updates p ws).2.getD i []) = decide (i = 0)) ∧
  ∀ (w : World) (q : PluginState),
    (on_gazebo_update w q).1.fdm_timestamp
      = (w.simSec : ℚ) + (w.simNsec : ℚ) * (1 / 1000000000)

/-- C9: in every run of post-step callbacks starting with the one-time
diagnostic flag still clear, the step-size diagnostic is emitted on the first
invocation and never on any later one, and each invocation records the
world's simulated clock (seconds plus nanoseconds times 1e-9) into
`_fdm.timestamp`. -/
theorem C9_post_step_callbacks (p : PluginState) (ws : List World)
    (h : p.timeMsgAlreadyDisplayed = false) : postStepSpec p ws := by
  constructor
  · intro i hi
    cases ws with
    | nil => simp at hi
    | cons w ws =>
        rw [run_updates_cons]
        cases i with
        | zero => simp [on_gazebo_update_logs, h, emitsDiag]
        | succ j =>
            simp only [List.getD_cons_succ]
            rw [run_updates_silent ws (on_gazebo_update w p).1
                  (on_gazebo_update_flag w p) j]
            simp
  · exact fun w q => on_gazebo_update_timestamp w q

/-- Witness for C9 from the initial plugin state over a two-step run. -/
theorem C9_post_step_callbacks_witness :
    postStepSpec initialPluginState [w0, w0] :=
  C9_post_step_callbacks initialPluginState [w0, w0] rfl

end ApmPlugin
